import Mathlib

/-!
Shallow embedding of the RuErl actor runtime (src/error.rs, src/process.rs,
src/gen_server.rs) and proofs about it.

Modelling conventions:
* `Box<dyn Any + Send + Sync>` messages are modelled by the inductive `Msg`,
  whose constructors mirror the runtime downcast targets of the GenServer
  dispatcher (`CastMessage`, `CallMessage`, anything else).  User payloads are
  opaque and modelled by `Nat`.
* The `oneshot` reply sender inside a `CallMessage` is modelled by a channel
  identifier `rid : Nat`; the dispatcher's sends into oneshot channels are
  collected as a list of `(rid, result)` pairs in the run-loop output.
* `tokio::sync::mpsc::channel(100)` is modelled by `Mailbox`, a bounded queue
  with explicit `capacity` and `closed` flag; a send on a full open mailbox
  yields `pending` (the sender suspends), on a closed mailbox a send error.
* The asynchronous run loop `Process::run` is modelled as a fold over the
  finite list of messages the mailbox yields before it closes; `eprintln!`
  logging is modelled by the `logs` component of the output.
* `Uuid::new_v4()` (the `uuid` crate, outside this repository) is modelled by
  an externally drawn fresh token passed to `spawn` as an argument.
-/

namespace RuErl

/-- Embeds `SwErlError` from src/error.rs. -/
inductive SwErlError where
  | ProcessNotFound (s : String)
  | InvalidState (s : String)
  | MailboxClosed
  | Timeout
  | CastFailed (s : String)
deriving DecidableEq

/-- Embeds `SwErlError::is_recoverable` from src/error.rs lines 31-39. -/
def SwErlError.is_recoverable : SwErlError → Bool
  | .ProcessNotFound _ => true
  | .InvalidState _ => false
  | .MailboxClosed => false
  | .Timeout => true
  | .CastFailed _ => false

/-- Opaque user payload standing for a `Box<dyn Any + Send + Sync>` value that
is neither a `CastMessage` nor a `CallMessage` wrapper. -/
abbrev Payload := Nat

/-- Embeds the possible shapes of a `Message` as seen by the GenServer
dispatcher's downcasts: `CastMessage(inner)`, `CallMessage(inner, reply_tx)`
(the oneshot sender modelled by the channel id `rid`), or any other payload. -/
inductive Msg where
  | castEnv (inner : Payload)
  | callEnv (inner : Payload) (rid : Nat)
  | other (raw : Payload)
deriving DecidableEq

/-- A send into a oneshot reply channel: the channel id and the `Result`
forwarded through it. -/
abbrev Reply := Nat × Except SwErlError Payload

/-- Embeds the shared state of a `tokio::sync::mpsc` bounded channel created by
`mpsc::channel(100)` in `ProcessBuilder::spawn`: the queued messages, the fixed
capacity, and whether the receiving end has been dropped. -/
structure Mailbox where
  queue : List Msg
  capacity : Nat
  closed : Bool
deriving DecidableEq

/-- Outcome of `tokio::sync::mpsc::Sender::send` on a bounded channel: the
message is enqueued when there is room, the sender suspends (`pending`) when the
queue is at capacity, and the send errors only when the channel is closed. -/
inductive MpscSendResult where
  | ok (mb : Mailbox)
  | pending
  | sendError
deriving DecidableEq

/-- Models the bounded-channel send semantics used by `ProcessHandle::send`. -/
def Mailbox.mpscSend (mb : Mailbox) (m : Msg) : MpscSendResult :=
  if mb.closed then .sendError
  else if mb.queue.length < mb.capacity then
    .ok { mb with queue := mb.queue ++ [m] }
  else .pending

/-- Models `Receiver::recv`: yields the oldest queued message, if any. -/
def Mailbox.recv (mb : Mailbox) : Option (Msg × Mailbox) :=
  match mb.queue with
  | [] => none
  | m :: rest => some (m, { mb with queue := rest })

/-- Outcome of `ProcessHandle::send` from src/process.rs lines 64-66: the tokio
send error is mapped to `SwErlError::MailboxClosed`. -/
inductive SendResult where
  | ok (mb : Mailbox)
  | pending
  | err (e : SwErlError)
deriving DecidableEq

/-- Embeds `ProcessHandle` from src/process.rs: the pid plus the sending half of
the mailbox channel (the channel state itself is passed explicitly). -/
structure ProcessHandle where
  pid : String
deriving DecidableEq

/-- Embeds `ProcessHandle::send`:
`self.sender.send(msg).await.map_err(|_| SwErlError::MailboxClosed)`. -/
def ProcessHandle.send (_h : ProcessHandle) (mb : Mailbox) (m : Msg) :
    SendResult :=
  match mb.mpscSend m with
  | .ok mb' => .ok mb'
  | .pending => .pending
  | .sendError => .err .MailboxClosed

/-- Result of one handler invocation inside the run loop: the state after the
invocation, the oneshot replies it sent as a side effect, and its `Result`. -/
structure HandlerOut (σ : Type) where
  state : σ
  replies : List Reply
  result : Except SwErlError Unit

/-- Output of a completed run loop: final state, all oneshot replies sent, the
errors logged via `eprintln!`, and the value `Process::run` returns. -/
structure RunOut (σ : Type) where
  state : σ
  replies : List Reply
  logs : List SwErlError
  result : Except SwErlError Unit

/-- Embeds `Process` from src/process.rs: pid, state cell, mailbox receiver. -/
structure Process (σ : Type) where
  pid : String
  state : σ
  mailbox : Mailbox

/-- Embeds the loop of `Process::run` from src/process.rs lines 36-52.  The
messages the mailbox yields before closing are the list `ms` (an empty list
embeds a mailbox that closes with an empty backlog); the `Arc<Mutex<State>>`
cell is threaded as explicit state.  Each failure is logged; a recoverable
failure continues the loop, a non-recoverable one returns the error at once,
leaving the remaining messages unprocessed; draining everything returns
`Ok(())`. -/
def Process.run {σ : Type} (handler : σ → Msg → HandlerOut σ) :
    σ → List Msg → RunOut σ
  | s, [] => ⟨s, [], [], .ok ()⟩
  | s, m :: ms =>
    let o := handler s m
    match o.result with
    | .ok _ =>
      let r := Process.run handler o.state ms
      ⟨r.state, o.replies ++ r.replies, r.logs, r.result⟩
    | .error e =>
      if e.is_recoverable then
        let r := Process.run handler o.state ms
        ⟨r.state, o.replies ++ r.replies, e :: r.logs, r.result⟩
      else ⟨o.state, o.replies, [e], .error e⟩

/-- Embeds `ProcessBuilder` from src/process.rs lines 70-72. -/
structure ProcessBuilder where
  name : Option String
deriving DecidableEq

/-- Embeds `ProcessBuilder::new`. -/
def ProcessBuilder.new : ProcessBuilder := ⟨none⟩

/-- Embeds the builder's `name` setter (src/process.rs lines 79-82); Lean
cannot give a method the same name as the `name` field. -/
def ProcessBuilder.named (b : ProcessBuilder) (n : String) : ProcessBuilder :=
  { b with name := some n }

/-- What `ProcessBuilder::spawn` produces: the returned `(pid, handle)` pair
together with the `Process` value moved into the spawned task. -/
structure Spawned (σ : Type) where
  pid : String
  handle : ProcessHandle
  process : Process σ

/-- Embeds `ProcessBuilder::spawn` from src/process.rs lines 85-102.  The pid
is the configured name, or else the freshly drawn uuid token (`Uuid::new_v4`
modelled by the argument `freshUuid`); the mailbox is created by
`mpsc::channel(100)`: empty, capacity 100, open. -/
def ProcessBuilder.spawn {σ : Type} (b : ProcessBuilder) (freshUuid : String)
    (initial : σ) : Spawned σ :=
  let pid := b.name.getD freshUuid
  ⟨pid, ⟨pid⟩, ⟨pid, initial, ⟨[], 100, false⟩⟩⟩

/-- Embeds the body of the task launched by `ProcessBuilder::spawn`:
`tokio::spawn(async move { let _ = process.run(handler).await; })` — the run
loop's result is discarded and the task produces nothing. -/
def ProcessBuilder.spawnTaskOutcome {σ : Type}
    (handler : σ → Msg → HandlerOut σ) (s : σ) (ms : List Msg) : Unit :=
  let _ := Process.run handler s ms
  ()

/-- Embeds the `GenServerBehavior` trait from src/gen_server.rs lines 9-18,
specialised to a state type `σ` (the `Arc<Mutex<State>>` cell is threaded as
explicit state, the downcasts to the concrete state type assumed to succeed). -/
structure GenServerBehavior (σ : Type) where
  init : Option Payload → Except SwErlError σ
  handle_cast : Payload → σ → σ × Except SwErlError Unit
  handle_call : Payload → σ → σ × Except SwErlError Payload

/-- Embeds the handler closure built by `GenServer::start` (src/gen_server.rs
lines 35-51): a cast envelope runs `handle_cast` and propagates its `Result`;
a call envelope runs `handle_call`, sends its `Result` (success or failure)
into the envelope's oneshot channel, and returns `Ok(())`; any other message is
ignored with `Ok(())`. -/
def GenServer.dispatch {σ : Type} (b : GenServerBehavior σ) (state : σ)
    (msg : Msg) : HandlerOut σ :=
  match msg with
  | .castEnv inner =>
    let r := b.handle_cast inner state
    ⟨r.1, [], r.2⟩
  | .callEnv inner rid =>
    let r := b.handle_call inner state
    ⟨r.1, [(rid, r.2)], .ok ()⟩
  | .other _ => ⟨state, [], .ok ()⟩

/-- Embeds `GenServer::start` from src/gen_server.rs lines 29-54: `init` is
awaited first; its error aborts the start and is returned, and only on success
is a process spawned, with the state `init` returned. -/
def GenServer.start {σ : Type} (b : GenServerBehavior σ) (args : Option Payload)
    (freshUuid : String) : Except SwErlError (Spawned σ) :=
  match b.init args with
  | .error e => .error e
  | .ok s0 => .ok (ProcessBuilder.new.spawn freshUuid s0)

/-- Embeds `GenServer::cast` from src/gen_server.rs lines 57-59: wrap the
payload in a cast envelope and enqueue it via `ProcessHandle::send`. -/
def GenServer.cast (h : ProcessHandle) (mb : Mailbox) (p : Payload) :
    SendResult :=
  h.send mb (Msg.castEnv p)

/-- Embeds the enqueue step of `GenServer::call` (src/gen_server.rs line 64):
wrap the payload and the fresh oneshot sender `rid` in a call envelope and
enqueue it. -/
def GenServer.callSend (h : ProcessHandle) (mb : Mailbox) (p : Payload)
    (rid : Nat) : SendResult :=
  h.send mb (Msg.callEnv p rid)

/-- The results sent into the oneshot channel `rid` among the replies `rs`. -/
def repliesTo (rid : Nat) (rs : List Reply) : List (Except SwErlError Payload) :=
  (rs.filter (fun r => r.1 == rid)).map Prod.snd

/-- How many call envelopes in `ms` carry the oneshot channel `rid`. -/
def callsTo (rid : Nat) (ms : List Msg) : Nat :=
  ms.countP fun m =>
    match m with
    | .callEnv _ r => r == rid
    | _ => false

/-- Embeds the await of `GenServer::call` (src/gen_server.rs lines 67-70):
`match rx.await { Ok(res) => res, Err(_) => Err(SwErlError::MailboxClosed) }`,
with the oneshot receiver modelled by the list of results ever sent into the
channel — empty means the sender was dropped unfulfilled. -/
def GenServer.awaitReply (rs : List (Except SwErlError Payload)) :
    Except SwErlError Payload :=
  match rs with
  | [] => .error .MailboxClosed
  | r :: _ => r

/-- End-to-end outcome of `GenServer::call` once the call envelope with channel
`rid` is in the process's message stream `ms`: run the dispatcher over the
stream and await the channel. -/
def GenServer.call {σ : Type} (b : GenServerBehavior σ) (s : σ) (ms : List Msg)
    (rid : Nat) : Except SwErlError Payload :=
  GenServer.awaitReply
    (repliesTo rid (Process.run (GenServer.dispatch b) s ms).replies)

/- Concrete instances used by witnesses and counterexamples. -/

/-- Error text used by concrete failing handlers. -/
def sBoom : String := "boom"

/-- Error text used by the concrete failing cast behavior. -/
def sCastBoom : String := "cast-boom"

/-- Error text used by the concrete failing init behavior. -/
def sInitBoom : String := "init-boom"

/-- A concrete uuid-like token. -/
def sUuid1 : String := "uuid-1"

/-- Another concrete uuid-like token. -/
def sUuid2 : String := "uuid-2"

/-- A concrete explicit process name. -/
def sCounter : String := "counter"

/-- A concrete handler that fails with a recoverable error on every message. -/
def recH : Nat → Msg → HandlerOut Nat :=
  fun s _ => ⟨s + 1, [], .error .Timeout⟩

/-- A concrete handler that fails with a non-recoverable error on every
message. -/
def fatalH : Nat → Msg → HandlerOut Nat :=
  fun s _ => ⟨s + 1, [], .error (.InvalidState sBoom)⟩

/-- A concrete handler that succeeds on every message. -/
def okH : Nat → Msg → HandlerOut Nat :=
  fun s _ => ⟨s + 1, [], .ok ()⟩

/-- A concrete counter behavior: casts add the payload to the state, calls
reply with the state plus the payload. -/
def counterB : GenServerBehavior Nat where
  init := fun _ => .ok 0
  handle_cast := fun p s => (s + p, .ok ())
  handle_call := fun p s => (s + 1, .ok (s + p))

/-- A concrete behavior whose casts always fail non-recoverably and whose calls
always fail (used to exercise the dispatcher's error paths). -/
def fatalCastB : GenServerBehavior Nat where
  init := fun _ => .error (.InvalidState sInitBoom)
  handle_cast := fun _ s => (s, .error (.InvalidState sCastBoom))
  handle_call := fun _ s => (s, .error .Timeout)

/-- A concrete behavior whose casts always fail recoverably. -/
def recCastB : GenServerBehavior Nat where
  init := fun _ => .ok 5
  handle_cast := fun _ s => (s + 1, .error .Timeout)
  handle_call := fun p s => (s, .ok p)

/-- A concrete process handle. -/
def hA : ProcessHandle := ⟨sUuid1⟩

/-- A concrete closed mailbox. -/
def mbClosed : Mailbox := ⟨[], 100, true⟩

/-- A concrete open mailbox filled to its capacity of 2. -/
def mbFull2 : Mailbox := ⟨[Msg.other 0, Msg.other 1], 2, false⟩

/- Helper lemmas about the run loop. -/

theorem run_cons_ok {σ : Type} (handler : σ → Msg → HandlerOut σ) (s : σ)
    (m : Msg) (ms : List Msg) (u : Unit)
    (hok : (handler s m).result = .ok u) :
    Process.run handler s (m :: ms) =
      ⟨(Process.run handler (handler s m).state ms).state,
       (handler s m).replies ++ (Process.run handler (handler s m).state ms).replies,
       (Process.run handler (handler s m).state ms).logs,
       (Process.run handler (handler s m).state ms).result⟩ := by
  simp only [Process.run, hok]

theorem run_cons_err {σ : Type} (handler : σ → Msg → HandlerOut σ) (s : σ)
    (m : Msg) (ms : List Msg) (e : SwErlError)
    (he : (handler s m).result = .error e) :
    Process.run handler s (m :: ms) =
      if e.is_recoverable then
        ⟨(Process.run handler (handler s m).state ms).state,
         (handler s m).replies ++ (Process.run handler (handler s m).state ms).replies,
         e :: (Process.run handler (handler s m).state ms).logs,
         (Process.run handler (handler s m).state ms).result⟩
      else ⟨(handler s m).state, (handler s m).replies, [e], .error e⟩ := by
  simp only [Process.run, he]

theorem repliesTo_append (rid : Nat) (a b : List Reply) :
    repliesTo rid (a ++ b) = repliesTo rid a ++ repliesTo rid b := by
  simp [repliesTo, List.filter_append]

theorem run_repliesTo_le {σ : Type} (rid : Nat) (p : Msg → Bool)
    (handler : σ → Msg → HandlerOut σ)
    (hstep : ∀ (s : σ) (m : Msg),
      (repliesTo rid (handler s m).replies).length ≤ (if p m then 1 else 0)) :
    ∀ (ms : List Msg) (s : σ),
      (repliesTo rid (Process.run handler s ms).replies).length ≤ ms.countP p
  | [], s => by simp [Process.run, repliesTo]
  | m :: ms, s => by
    have ih := run_repliesTo_le rid p handler hstep ms
    have hs := hstep s m
    rcases hres : (handler s m).result with ⟨e⟩ | ⟨u⟩
    case ok =>
      rw [run_cons_ok handler s m ms u hres]
      simp only [repliesTo_append, List.length_append, List.countP_cons]
      have h2 := ih (handler s m).state
      omega
    case error =>
      rw [run_cons_err handler s m ms e hres]
      cases hrec : e.is_recoverable
      · simp only [hrec, Bool.false_eq_true, if_false, List.countP_cons]
        omega
      · simp only [hrec, if_true, repliesTo_append, List.length_append,
          List.countP_cons]
        have h2 := ih (handler s m).state
        omega

/-- Claim C7: `is_recoverable` classifies each error kind exactly as the
taxonomy table: `ProcessNotFound` and `Timeout` are recoverable; `InvalidState`,
`MailboxClosed` and `CastFailed` are not. -/
theorem c7_is_recoverable_taxonomy :
    (∀ s, (SwErlError.ProcessNotFound s).is_recoverable = true) ∧
    (∀ s, (SwErlError.InvalidState s).is_recoverable = false) ∧
    SwErlError.MailboxClosed.is_recoverable = false ∧
    SwErlError.Timeout.is_recoverable = true ∧
    (∀ s, (SwErlError.CastFailed s).is_recoverable = false) :=
  ⟨fun _ => rfl, fun _ => rfl, rfl, rfl, fun _ => rfl⟩

/-- Claim C2: the run loop returns `Ok(())` when the mailbox closes with an
empty backlog; a recoverable handler failure is logged and the process keeps
draining the remaining messages; a non-recoverable failure is logged and stops
the loop at once, returning that error with the remaining messages never
processed. -/
theorem c2_run_loop_policy {σ : Type} (handler : σ → Msg → HandlerOut σ)
    (s : σ) (m : Msg) (ms : List Msg) :
    Process.run handler s [] = ⟨s, [], [], .ok ()⟩ ∧
    (∀ e, (handler s m).result = .error e → e.is_recoverable = true →
      Process.run handler s (m :: ms) =
        ⟨(Process.run handler (handler s m).state ms).state,
         (handler s m).replies ++
           (Process.run handler (handler s m).state ms).replies,
         e :: (Process.run handler (handler s m).state ms).logs,
         (Process.run handler (handler s m).state ms).result⟩) ∧
    (∀ e, (handler s m).result = .error e → e.is_recoverable = false →
      Process.run handler s (m :: ms) =
        ⟨(handler s m).state, (handler s m).replies, [e], .error e⟩) := by
  refine ⟨rfl, ?_, ?_⟩
  · intro e he hrec
    rw [run_cons_err handler s m ms e he]
    simp [hrec]
  · intro e he hrec
    rw [run_cons_err handler s m ms e he]
    simp [hrec]

/-- Witness for C2: a recoverable failure (`Timeout`) is logged and the loop
continues to a clean stop; a non-recoverable failure (`InvalidState`) stops the
loop on the first of two messages. -/
theorem c2_run_loop_policy_witness :
    Process.run recH 0 [] = ⟨0, [], [], .ok ()⟩ ∧
    Process.run recH 0 [Msg.other 0] =
      ⟨1, [], [SwErlError.Timeout], .ok ()⟩ ∧
    Process.run fatalH 0 [Msg.other 0, Msg.other 1] =
      ⟨1, [], [SwErlError.InvalidState sBoom],
        .error (SwErlError.InvalidState sBoom)⟩ := by
  refine ⟨(c2_run_loop_policy recH 0 (Msg.other 0) []).1, ?_, ?_⟩
  · have h := (c2_run_loop_policy recH 0 (Msg.other 0) []).2.1
      SwErlError.Timeout rfl rfl
    exact h.trans rfl
  · have h := (c2_run_loop_policy fatalH 0 (Msg.other 0) [Msg.other 1]).2.2
      (SwErlError.InvalidState sBoom) rfl rfl
    exact h.trans rfl

/-- Claim C6: a message that is neither a cast envelope nor a call envelope is
silently ignored: the dispatcher leaves the state unchanged, sends no reply,
returns success, and the run loop proceeds exactly as if the message had not
been delivered. -/
theorem c6_unknown_message_ignored {σ : Type} (b : GenServerBehavior σ)
    (s : σ) (raw : Payload) (ms : List Msg) :
    GenServer.dispatch b s (Msg.other raw) = ⟨s, [], .ok ()⟩ ∧
    Process.run (GenServer.dispatch b) s (Msg.other raw :: ms) =
      Process.run (GenServer.dispatch b) s ms := by
  refine ⟨rfl, ?_⟩
  rw [run_cons_ok (GenServer.dispatch b) s (Msg.other raw) ms () rfl]
  rfl

theorem dispatch_error_cast {σ : Type} (b : GenServerBehavior σ) (s : σ)
    (m : Msg) (e : SwErlError)
    (h : (GenServer.dispatch b s m).result = .error e) :
    ∃ p, m = .castEnv p ∧ (b.handle_cast p s).2 = .error e := by
  cases m with
  | castEnv p => exact ⟨p, rfl, h⟩
  | callEnv p rid => simp [GenServer.dispatch] at h
  | other raw => simp [GenServer.dispatch] at h

theorem run_dispatch_error_from_cast {σ : Type} (b : GenServerBehavior σ) :
    ∀ (ms : List Msg) (s : σ) (e : SwErlError),
      (Process.run (GenServer.dispatch b) s ms).result = .error e →
      e.is_recoverable = false ∧ ∃ p st, (b.handle_cast p st).2 = .error e
  | [], s, e => by simp [Process.run]
  | m :: ms, s, e => by
    intro h
    rcases hres : (GenServer.dispatch b s m).result with ⟨e'⟩ | ⟨u⟩
    case ok =>
      rw [run_cons_ok (GenServer.dispatch b) s m ms u hres] at h
      exact run_dispatch_error_from_cast b ms _ e h
    case error =>
      rw [run_cons_err (GenServer.dispatch b) s m ms e' hres] at h
      cases hrec : e'.is_recoverable
      · rw [hrec] at h
        simp only [Bool.false_eq_true, if_false] at h
        have he : e' = e := by simpa using h
        subst he
        obtain ⟨p, _, hp⟩ := dispatch_error_cast b s m e' hres
        exact ⟨hrec, p, s, hp⟩
      · rw [hrec] at h
        simp only [if_true] at h
        exact run_dispatch_error_from_cast b ms _ e h

/-- Claim C3: the dispatcher's handler returns success after forwarding
`handle_call`'s result into the reply channel, so a failure returned by
`handle_call` — even a non-recoverable one — never terminates the process;
every error the dispatcher hands to the run loop, and hence every error the
loop's recoverability policy acts on, originates from `handle_cast`. -/
theorem c3_call_failure_never_fatal {σ : Type} (b : GenServerBehavior σ)
    (s : σ) :
    (∀ p rid, (GenServer.dispatch b s (Msg.callEnv p rid)).result = .ok ()) ∧
    (∀ m e, (GenServer.dispatch b s m).result = .error e →
      ∃ p, m = .castEnv p ∧ (b.handle_cast p s).2 = .error e) ∧
    (∀ ms e, (Process.run (GenServer.dispatch b) s ms).result = .error e →
      e.is_recoverable = false ∧
      ∃ p st, (b.handle_cast p st).2 = .error e) :=
  ⟨fun _ _ => rfl, fun m e h => dispatch_error_cast b s m e h,
    fun ms e h => run_dispatch_error_from_cast b ms s e h⟩

/-- Witness for C3: a behavior whose `handle_call` fails still makes the
dispatcher report success; a run over one failing cast envelope terminates
with exactly the non-recoverable `handle_cast` error. -/
theorem c3_call_failure_never_fatal_witness :
    (GenServer.dispatch fatalCastB 0 (Msg.callEnv 1 2)).result = .ok () ∧
    (∃ p, Msg.castEnv 5 = Msg.castEnv p ∧
      (fatalCastB.handle_cast p 0).2 =
        .error (SwErlError.InvalidState sCastBoom)) ∧
    (SwErlError.InvalidState sCastBoom).is_recoverable = false := by
  have h := c3_call_failure_never_fatal fatalCastB 0
  exact ⟨h.1 1 2, h.2.1 (Msg.castEnv 5) (SwErlError.InvalidState sCastBoom) rfl,
    (h.2.2 [Msg.castEnv 5] (SwErlError.InvalidState sCastBoom) rfl).1⟩

/-- Claim C4: `GenServer::start` awaits `init` first; an `init` error is
returned to the caller of `start` and nothing is spawned (the result carries no
handle and no process); only on `init` success is a process spawned, and its
installed state is exactly the state `init` returned. -/
theorem c4_start_init_gate {σ : Type} (b : GenServerBehavior σ)
    (args : Option Payload) (u : String) :
    (∀ e, b.init args = .error e → GenServer.start b args u = .error e) ∧
    (∀ s0, b.init args = .ok s0 →
      GenServer.start b args u = .ok (ProcessBuilder.new.spawn u s0) ∧
      ∃ sp, GenServer.start b args u = .ok sp ∧ sp.process.state = s0 ∧
        sp.handle.pid = sp.pid ∧ sp.process.pid = sp.pid) := by
  constructor
  · intro e he
    simp [GenServer.start, he]
  · intro s0 hs0
    have hstart : GenServer.start b args u =
        .ok (ProcessBuilder.new.spawn u s0) := by
      simp [GenServer.start, hs0]
    exact ⟨hstart, ProcessBuilder.new.spawn u s0, hstart, rfl, rfl, rfl⟩

/-- Witness for C4: a failing `init` aborts the start with its error; the
counter behavior's `init` succeeds and the spawned process holds the state 0
that `init` returned. -/
theorem c4_start_init_gate_witness :
    GenServer.start fatalCastB none sUuid1 =
      .error (SwErlError.InvalidState sInitBoom) ∧
    GenServer.start counterB none sUuid1 =
      .ok (ProcessBuilder.new.spawn sUuid1 0) := by
  refine ⟨(c4_start_init_gate fatalCastB none sUuid1).1
    (SwErlError.InvalidState sInitBoom) rfl, ?_⟩
  exact ((c4_start_init_gate counterB none sUuid1).2 0 rfl).1

/-- Claim C5: `GenServer::cast` returns the enqueue outcome of the cast
envelope and nothing else; the only failure it can report is the enqueue-step
`MailboxClosed`, possible only when the mailbox is closed; a failure occurring
later inside `handle_cast` is handled by the run loop's recoverability policy
(shown here for the recoverable case: it is logged and the loop continues)
and is not part of the cast's outcome. -/
theorem c5_cast_enqueue_only {σ : Type} (h : ProcessHandle) (mb : Mailbox)
    (p : Payload) (b : GenServerBehavior σ) :
    GenServer.cast h mb p = h.send mb (Msg.castEnv p) ∧
    (∀ e, GenServer.cast h mb p = .err e →
      e = .MailboxClosed ∧ mb.closed = true) ∧
    (∀ (st : σ) (e : SwErlError) (ms : List Msg),
      (b.handle_cast p st).2 = .error e → e.is_recoverable = true →
      Process.run (GenServer.dispatch b) st (Msg.castEnv p :: ms) =
        ⟨(Process.run (GenServer.dispatch b) (b.handle_cast p st).1 ms).state,
         (Process.run (GenServer.dispatch b) (b.handle_cast p st).1 ms).replies,
         e :: (Process.run (GenServer.dispatch b) (b.handle_cast p st).1 ms).logs,
         (Process.run (GenServer.dispatch b) (b.handle_cast p st).1 ms).result⟩) := by
  refine ⟨rfl, ?_, ?_⟩
  · intro e he
    unfold GenServer.cast ProcessHandle.send Mailbox.mpscSend at he
    cases hclosed : mb.closed
    · exfalso
      rw [hclosed] at he
      by_cases hlen : mb.queue.length < mb.capacity
      · simp [hlen] at he
      · simp [hlen] at he
    · rw [hclosed] at he
      simp at he
      exact ⟨he.symm, rfl⟩
  · intro st e ms hcast hrec
    rw [run_cons_err (GenServer.dispatch b) st (Msg.castEnv p) ms e hcast]
    simp only [hrec, if_true]
    rfl

/-- Witness for C5: a cast into a closed mailbox reports `MailboxClosed`, and
a recoverable `handle_cast` failure leaves the loop draining (shown on the
concrete recoverable-cast behavior). -/
theorem c5_cast_enqueue_only_witness :
    GenServer.cast hA mbClosed 3 = .err SwErlError.MailboxClosed ∧
    SwErlError.MailboxClosed = .MailboxClosed ∧ mbClosed.closed = true ∧
    Process.run (GenServer.dispatch recCastB) 5 [Msg.castEnv 3] =
      ⟨6, [], [SwErlError.Timeout], .ok ()⟩ := by
  have h := c5_cast_enqueue_only hA mbClosed 3 recCastB
  have h2 := h.2.1 SwErlError.MailboxClosed rfl
  have h3 := h.2.2 5 SwErlError.Timeout [] rfl rfl
  exact ⟨rfl, h2.1, h2.2, h3.trans rfl⟩

/-- Claim C8: every spawned process gets a fresh bounded mailbox of capacity
exactly 100; `ProcessHandle::send` on a full open mailbox suspends the sender
(`pending`) instead of failing; with room below capacity the send completes by
enqueueing at the tail, in particular right after the backlog of a full mailbox
drains by one receive. -/
theorem c8_mailbox_capacity_backpressure {σ : Type} (b : ProcessBuilder)
    (u : String) (s0 : σ) (h : ProcessHandle) (mb : Mailbox) (m m' : Msg) :
    (b.spawn u s0).process.mailbox = ⟨[], 100, false⟩ ∧
    (b.spawn u s0).process.mailbox.capacity = 100 ∧
    (mb.closed = false → mb.capacity ≤ mb.queue.length →
      h.send mb m = .pending) ∧
    (mb.closed = false → mb.queue.length < mb.capacity →
      h.send mb m = .ok { mb with queue := mb.queue ++ [m] }) ∧
    (mb.closed = false → mb.queue.length = mb.capacity → 0 < mb.capacity →
      ∃ x mb', mb.recv = some (x, mb') ∧
        h.send mb' m' = .ok { mb' with queue := mb'.queue ++ [m'] }) := by
  refine ⟨rfl, rfl, ?_, ?_, ?_⟩
  · intro hc hlen
    simp [ProcessHandle.send, Mailbox.mpscSend, hc, Nat.not_lt.mpr hlen]
  · intro hc hlen
    simp [ProcessHandle.send, Mailbox.mpscSend, hc, hlen]
  · intro hc hlen hcap
    cases hq : mb.queue with
    | nil => rw [hq] at hlen; simp at hlen; omega
    | cons x rest =>
      refine ⟨x, { mb with queue := rest }, by simp [Mailbox.recv, hq], ?_⟩
      have hr : rest.length < mb.capacity := by
        rw [hq] at hlen
        simp at hlen
        omega
      simp [ProcessHandle.send, Mailbox.mpscSend, hc, hr]

/-- Witness for C8: the spawned mailbox is empty with capacity 100; sending
into a full open 2-capacity mailbox suspends; after one receive the next send
completes. -/
theorem c8_mailbox_capacity_backpressure_witness :
    (ProcessBuilder.new.spawn sUuid1 (0 : Nat)).process.mailbox =
      ⟨[], 100, false⟩ ∧
    hA.send mbFull2 (Msg.other 7) = .pending ∧
    (∃ x mb', mbFull2.recv = some (x, mb') ∧
      hA.send mb' (Msg.other 8) =
        .ok { mb' with queue := mb'.queue ++ [Msg.other 8] }) := by
  have h := c8_mailbox_capacity_backpressure ProcessBuilder.new sUuid1 (0 : Nat)
    hA mbFull2 (Msg.other 7) (Msg.other 8)
  exact ⟨h.1, h.2.2.1 rfl (by decide), h.2.2.2.2 rfl (by decide) (by decide)⟩

/-- Claim C9: spawning with an explicit name yields exactly that name as the
process identifier; spawning without one yields the freshly drawn uuid token,
so spawns that draw distinct tokens get distinct identifiers; the identifier is
carried identically by the returned pid, the handle, and the process. -/
theorem c9_spawn_pid (n u u1 u2 : String) {σ : Type} (s s1 s2 : σ) :
    ((ProcessBuilder.new.named n).spawn u s).pid = n ∧
    (ProcessBuilder.new.spawn u s).pid = u ∧
    (u1 ≠ u2 →
      (ProcessBuilder.new.spawn u1 s1).pid ≠
        (ProcessBuilder.new.spawn u2 s2).pid) ∧
    (∀ b : ProcessBuilder, (b.spawn u s).handle.pid = (b.spawn u s).pid ∧
      (b.spawn u s).process.pid = (b.spawn u s).pid) :=
  ⟨rfl, rfl, fun hne => hne, fun _ => ⟨rfl, rfl⟩⟩

/-- Witness for C9: spawning under the explicit name yields it; two anonymous
spawns drawing the distinct concrete tokens get distinct pids. -/
theorem c9_spawn_pid_witness :
    sUuid1 ≠ sUuid2 ∧
    ((ProcessBuilder.new.named sCounter).spawn sUuid1 (0 : Nat)).pid =
      sCounter ∧
    (ProcessBuilder.new.spawn sUuid1 (0 : Nat)).pid ≠
      (ProcessBuilder.new.spawn sUuid2 (0 : Nat)).pid := by
  have hne : sUuid1 ≠ sUuid2 := by decide
  have h := c9_spawn_pid sCounter sUuid1 sUuid1 sUuid2 (0 : Nat) 0 0
  exact ⟨hne, h.1, h.2.2.1 hne⟩

/-- Claim C1: when the reply channel `rid` is fresh (at most one call envelope
in the stream carries it), the channel receives at most one `Result` over the
whole run; the dispatcher forwards exactly `handle_call`'s result — success or
failure — through the channel while itself returning success; and the caller's
await yields exactly one outcome: the single forwarded result if the channel
was fulfilled, or `MailboxClosed` if it was dropped unfulfilled. -/
theorem c1_call_exactly_one_outcome {σ : Type} (b : GenServerBehavior σ)
    (s : σ) (ms : List Msg) (rid : Nat)
    (hfresh : callsTo rid ms ≤ 1) :
    (repliesTo rid
      (Process.run (GenServer.dispatch b) s ms).replies).length ≤ 1 ∧
    (∀ p st, GenServer.dispatch b st (Msg.callEnv p rid) =
      ⟨(b.handle_call p st).1, [(rid, (b.handle_call p st).2)], .ok ()⟩) ∧
    ((∃ r, repliesTo rid
        (Process.run (GenServer.dispatch b) s ms).replies = [r] ∧
        GenServer.call b s ms rid = r) ∨
      (repliesTo rid
        (Process.run (GenServer.dispatch b) s ms).replies = [] ∧
        GenServer.call b s ms rid = .error .MailboxClosed)) := by
  have h1 : (repliesTo rid
      (Process.run (GenServer.dispatch b) s ms).replies).length ≤ 1 := by
    refine le_trans
      (run_repliesTo_le rid _ (GenServer.dispatch b) ?_ ms s) hfresh
    intro st m
    cases m with
    | castEnv q => simp [repliesTo, GenServer.dispatch]
    | callEnv q r =>
      cases hr : (r == rid) <;> simp [repliesTo, GenServer.dispatch, hr]
    | other raw => simp [repliesTo, GenServer.dispatch]
  refine ⟨h1, fun _ _ => rfl, ?_⟩
  rcases hL : repliesTo rid
      (Process.run (GenServer.dispatch b) s ms).replies with _ | ⟨r, rest⟩
  · right
    refine ⟨rfl, ?_⟩
    show GenServer.awaitReply (repliesTo rid
      (Process.run (GenServer.dispatch b) s ms).replies) =
        .error .MailboxClosed
    rw [hL]
    rfl
  · left
    rw [hL] at h1
    simp only [List.length_cons] at h1
    have hrest : rest = [] := List.length_eq_zero.mp (by omega)
    subst hrest
    refine ⟨r, rfl, ?_⟩
    show GenServer.awaitReply (repliesTo rid
      (Process.run (GenServer.dispatch b) s ms).replies) = r
    rw [hL]
    rfl

/-- Witness for C1 at the concrete counter behavior and a single fresh call
envelope. -/
theorem c1_call_exactly_one_outcome_witness :
    callsTo 7 [Msg.callEnv 3 7] ≤ 1 ∧
    (repliesTo 7 (Process.run (GenServer.dispatch counterB) 0
      [Msg.callEnv 3 7]).replies).length ≤ 1 :=
  ⟨by decide,
    (c1_call_exactly_one_outcome counterB 0 [Msg.callEnv 3 7] 7 (by decide)).1⟩

/-- Counterexample to claim C10: at a concrete fatal handler the run loop does
terminate with a non-recoverable error, yet the spawned task's outcome is
indistinguishable from that of a cleanly succeeding run, because the task body
spawned by `ProcessBuilder::spawn` discards the run result — so the fatal
error surfaces to no awaiter. -/
theorem c10_counterexample :
    (Process.run fatalH 0 [Msg.other 0]).result =
      .error (SwErlError.InvalidState sBoom) ∧
    ProcessBuilder.spawnTaskOutcome fatalH 0 [Msg.other 0] =
      ProcessBuilder.spawnTaskOutcome okH 0 [Msg.other 0] ∧
    (Process.run okH 0 [Msg.other 0]).result = .ok () :=
  ⟨rfl, rfl, rfl⟩

/-- Claim C10 as amended: when the run loop exits with a non-recoverable
error, that error is only the return value of `Process::run` inside the
spawned task; the task body discards it (`let _ = ...`) and the join handle is
never returned by `spawn`, so the task outcome after an abnormal termination
is identical to the outcome after a clean shutdown with no messages — the
error surfaces to no awaiter. -/
theorem c10_amended_error_discarded {σ : Type}
    (handler : σ → Msg → HandlerOut σ) (s : σ) (ms : List Msg)
    (e : SwErlError)
    (_hfatal : (Process.run handler s ms).result = .error e) :
    ProcessBuilder.spawnTaskOutcome handler s ms =
      ProcessBuilder.spawnTaskOutcome handler s [] := rfl

/-- Witness for the amended C10 at the concrete fatal handler. -/
theorem c10_amended_error_discarded_witness :
    (Process.run fatalH 0 [Msg.other 0]).result =
      .error (SwErlError.InvalidState sBoom) ∧
    ProcessBuilder.spawnTaskOutcome fatalH 0 [Msg.other 0] =
      ProcessBuilder.spawnTaskOutcome fatalH 0 [] :=
  ⟨rfl, c10_amended_error_discarded fatalH 0 [Msg.other 0]
    (SwErlError.InvalidState sBoom) rfl⟩

end RuErl
